import Mathlib

/-
Verification development for the dvonthenen/websocketproxy half-duplex
reverse proxy (pkg/half-duplex/half-duplex-backend-proxy.go).

The Go source is shallowly embedded: HTTP header sets become association
lists with the textproto key canonicalization that net/http applies on
Add/Set/Del/Get; the two relay-loop closures become trace-producing
functions over the sequence of read outcomes (the per-iteration select is
modelled in the runs where the stop channel is never triggered, i.e. the
default branch is taken, which is the regime all the properties below
speak about); connection handles become Option values; Go channel close
and panic become explicit results.
-/

set_option maxHeartbeats 1000000

namespace WSProxy

/-- Errors of the Go error interface as they are discriminated by the
source: a structured websocket.CloseError (type assertion at lines
248 and 286), the sentinel websocket.ErrCloseSent, a net.Error whose
Temporary() reports true resp. false (line 324), the sentinel
common.ErrConnectionNotEstablished returned by SendMessageByType, and
any other error carrying only its message text. -/
inductive GoError where
  | closeError (code : Nat) (text : String)
  | errCloseSent
  | netTemporary (text : String)
  | netPermanent (text : String)
  | connNotEstablished
  | other (text : String)
deriving DecidableEq, Repr

/-- Rendering of an error by fmt.Sprintf with the v verb, i.e. the
Error() string. Modelled from the external dvonthenen/websocket library
(out of scope of the repository source): CloseError.Error() prints the
numeric code and the text; the parenthesised code label it inserts is
elided, no claim depends on the exact shape of this string. -/
def GoError.errString : GoError → String
  | .closeError code text =>
      "websocket: close " ++ toString code ++ (if text = "" then "" else ": " ++ text)
  | .errCloseSent => "websocket: close sent"
  | .netTemporary t => t
  | .netPermanent t => t
  | .connNotEstablished => "connection not established"
  | .other t => t

/-- websocket.CloseNormalClosure. -/
def closeNormalClosure : Nat := 1000

/-- websocket.CloseNoStatusReceived. -/
def closeNoStatusReceived : Nat := 1005

/-- A close frame as produced by websocket.FormatCloseMessage: the
close code together with the reason text (the 2-byte big-endian wire
encoding is abstracted to the pair). -/
structure CloseMsg where
  code : Nat
  text : String
deriving DecidableEq, Repr

/-- Outcome of one src.ReadMessage() call: a message (type and payload
bytes) or an error. -/
inductive ReadResult where
  | ok (msgType : Nat) (payload : List Nat)
  | err (e : GoError)
deriving DecidableEq, Repr

/-- Observable actions of a relay loop, in program order: a ReadMessage
call with its outcome, a WriteMessage call on the destination peer with
its outcome, a close-frame WriteMessage on the destination peer (the
source discards its result), a send on the error channel, and a
Viewer.HandleMessage delivery. -/
inductive Event where
  | readCall (r : ReadResult)
  | writeCall (msgType : Nat) (payload : List Nat) (result : Option GoError)
  | writeCloseCall (m : CloseMsg)
  | reportErr (e : GoError)
  | viewerCall (payload : List Nat)
deriving DecidableEq, Repr

/-- Close-frame synthesis on a read error, source lines 247-252 and
285-290: start from FormatCloseMessage(CloseNormalClosure, Sprintf of
the error) and override with the structured code and reason when the
error is a CloseError whose code is not CloseNoStatusReceived. -/
def closeMessageFor (e : GoError) : CloseMsg :=
  match e with
  | .closeError code text =>
      if code = closeNoStatusReceived then
        ⟨closeNormalClosure, GoError.errString (.closeError code text)⟩
      else
        ⟨code, text⟩
  | _ => ⟨closeNormalClosure, GoError.errString e⟩

/-- One iteration's environment for the forward loop: the outcome of
the ReadMessage call and, when the read succeeded, the outcome of the
forwarding dst.WriteMessage call. -/
structure FwdStep where
  read : ReadResult
  writeResult : Option GoError
deriving DecidableEq, Repr

/-- The forward-loop closure replicateWebsocketProxyToServer (source
lines 235-271), reading the client and writing the backend, in runs
where the stop channel never fires. Faithful to the Go control flow:
on a read error the code sends the error on errc, writes the close
frame to the backend, and executes a break statement that terminates
only the innermost select, after which doExit is still false, so the
for loop proceeds to the next read; only a forwarding-write failure
sets doExit and exits the loop. -/
def replicateWebsocketProxyToServer : List FwdStep → List Event
  | [] => []
  | step :: rest =>
    match step.read with
    | .err e =>
        .readCall (.err e) :: .reportErr e :: .writeCloseCall (closeMessageFor e) ::
          replicateWebsocketProxyToServer rest
    | .ok t p =>
        match step.writeResult with
        | none =>
            .readCall (.ok t p) :: .writeCall t p none ::
              replicateWebsocketProxyToServer rest
        | some e => [.readCall (.ok t p), .writeCall t p (some e), .reportErr e]

/-- The intercept-loop closure replicateWebsocketClientToProxy (source
lines 273-308), reading the backend, in runs where the stop channel
never fires. On a successful read the message is never written to the
client; when the message type is 1 (text) and a Viewer is configured
the payload is handed to Viewer.HandleMessage (line 297). The read
error branch behaves like the forward loop's, directed at the client
socket, including the select-only break. -/
def replicateWebsocketClientToProxy (viewerConfigured : Bool) : List ReadResult → List Event
  | [] => []
  | r :: rest =>
    match r with
    | .err e =>
        .readCall (.err e) :: .reportErr e :: .writeCloseCall (closeMessageFor e) ::
          replicateWebsocketClientToProxy viewerConfigured rest
    | .ok t p =>
        .readCall (.ok t p) ::
          ((if t == 1 && viewerConfigured then [Event.viewerCall p] else []) ++
            replicateWebsocketClientToProxy viewerConfigured rest)

/-- Payloads delivered to the Viewer in a trace, in order. -/
def viewerPayloads : List Event → List (List Nat)
  | [] => []
  | .viewerCall p :: rest => p :: viewerPayloads rest
  | _ :: rest => viewerPayloads rest

/-- Message writes (type, payload) performed on the destination peer in
a trace, in order; close-frame control writes are not message writes. -/
def messageWrites : List Event → List (Nat × List Nat)
  | [] => []
  | .writeCall t p _ :: rest => (t, p) :: messageWrites rest
  | _ :: rest => messageWrites rest

/-- Payloads of the successfully read text-type (type 1) messages in a
read sequence, in order. -/
def textPayloads : List ReadResult → List (List Nat)
  | [] => []
  | .ok t p :: rest => if t == 1 then p :: textPayloads rest else textPayloads rest
  | .err _ :: rest => textPayloads rest

/-- The event trace a fully transparent in-order forward of the given
messages must produce: each message read, then written with the same
type and payload, before the next message is read. -/
def fwdExpectedTrace : List (Nat × List Nat) → List Event
  | [] => []
  | m :: rest => .readCall (.ok m.1 m.2) :: .writeCall m.1 m.2 none :: fwdExpectedTrace rest

/-- Go net/http header sets (map from canonical key to value list),
flattened to an association list in insertion order. -/
abbrev Header := List (String × String)

/-- Character sequence of Go textproto canonicalization: the first
letter and every letter following a hyphen are upper-cased, all other
letters lower-cased. -/
def canonicalChars : Bool → List Char → List Char
  | _, [] => []
  | upNext, c :: rest =>
      (if upNext then c.toUpper else c.toLower) :: canonicalChars (c == '-') rest

/-- Go textproto.CanonicalMIMEHeaderKey as applied by http.Header.Add,
Set, Del and Get (the pass-through for keys containing invalid token
characters is elided; all keys involved here are valid tokens). -/
def canonicalKey (s : String) : String := String.mk (canonicalChars true s.data)

/-- http.Header.Add: appends the value under the canonical key. -/
def hAdd (h : Header) (k v : String) : Header := h ++ [(canonicalKey k, v)]

/-- http.Header.Del: removes every value stored under the canonical key. -/
def hDel (h : Header) (k : String) : Header :=
  h.filter fun kv => kv.1 != canonicalKey k

/-- http.Header.Set: replaces all values of the canonical key by one. -/
def hSet (h : Header) (k v : String) : Header := hDel h k ++ [(canonicalKey k, v)]

/-- The value list stored under the canonical form of the key. -/
def hValues (h : Header) (k : String) : List String :=
  (h.filter fun kv => kv.1 == canonicalKey k).map Prod.snd

/-- http.Header.Get: the first value of the canonical key, or the empty
string if there is none. -/
def hGetFirst (h : Header) (k : String) : String := (hValues h k).headD ""

/-- The eleven header names that ServeHTTP deletes from the cloned
inbound header set in natural-tunnel mode, source lines 86-98 (and the
shadowed response-leg copy, lines 189-201): the handshake headers that
the transport library re-adds, and the classic hop-by-hop headers. -/
def tunnelDelNames : List String :=
  ["Connection", "Sec-Websocket-Extensions", "Sec-Websocket-Key",
   "Sec-Websocket-Version", "Upgrade", "Keep-Alive", "Transfer-Encoding",
   "TE", "Trailer", "Proxy-Authorization", "Proxy-Authenticate"]

/-- The successive Del calls of the natural-tunnel branch. -/
def stripTunnelHeaders (h : Header) : Header := tunnelDelNames.foldl hDel h

/-- Natural-tunnel request leg, source lines 76-98: clone the entire
inbound header set (a value copy in this model) and strip the eleven
names. -/
def naturalTunnelRequestHeader (reqHeader : Header) : Header :=
  stripTunnelHeaders reqHeader

/-- Source lines 123-139: fold the peer address into an X-Forwarded-For
chain (joined after any prior chain of the inbound request) when the
remote address splits into host and port, then set X-Forwarded-Proto to
http and override it with https when the inbound connection carried
TLS. remoteIP is the host part of req.RemoteAddr, none when
net.SplitHostPort fails. -/
def addForwardedHeaders (h reqHeader : Header) (remoteIP : Option String) (tls : Bool) : Header :=
  let h1 := match remoteIP with
    | none => h
    | some ip =>
        let prior := hValues reqHeader "X-Forwarded-For"
        let chain := if prior.isEmpty then ip else String.intercalate ", " prior ++ ", " ++ ip
        hSet h "X-Forwarded-For" chain
  let h2 := hSet h1 "X-Forwarded-Proto" "http"
  if tls then hSet h2 "X-Forwarded-Proto" "https" else h2

/-- The outbound request header set handed to dialer.Dial in
natural-tunnel mode, for a proxy with no Director configured (the
Director hook at lines 143-145 is an external collaborator and absent
here): the cloned-then-stripped inbound set plus the forwarded-for and
forwarded-proto annotations. -/
def requestHeaderNaturalTunnel (reqHeader : Header) (remoteIP : Option String) (tls : Bool) : Header :=
  addForwardedHeaders (naturalTunnelRequestHeader reqHeader) reqHeader remoteIP tls

/-- Default-mode response leg, source lines 202-218: an empty set that
receives at most one Sec-Websocket-Protocol, one Set-Cookie and one
Sec-Websocket-Accept value taken from the backend handshake response. -/
def defaultUpgradeHeader (respHeader : Header) : Header :=
  let h : Header := []
  let h := if hGetFirst respHeader "Sec-Websocket-Protocol" != "" then
      hSet h "Sec-Websocket-Protocol" (hGetFirst respHeader "Sec-Websocket-Protocol")
    else h
  let h := if hGetFirst respHeader "Set-Cookie" != "" then
      hSet h "Set-Cookie" (hGetFirst respHeader "Set-Cookie")
    else h
  if hGetFirst respHeader "Sec-Websocket-Accept" != "" then
    hSet h "Sec-Websocket-Accept" (hGetFirst respHeader "Sec-Websocket-Accept")
  else h

/-- The header set ServeHTTP actually passes to upgrader.Upgrade at
line 222 (none models a nil http.Header). The outer upgradeHeader
variable is declared at line 176 and left nil on the natural-tunnel
path: the assignment at line 180 uses a short variable declaration and
therefore creates a SHADOWED local inside the if block, so the
cloned-then-stripped set built there is discarded. Only the default
branch assigns the outer variable. -/
def upgradeHeaderPassed (naturalTunnel : Bool) (respHeader : Header) : Option Header :=
  if naturalTunnel then none else some (defaultUpgradeHeader respHeader)

/-- The fields of net/url.URL that the proxy reads or writes. -/
structure URL where
  scheme : String
  host : String
  path : String
  rawQuery : String
  fragment : String
deriving DecidableEq, Repr

/-- The backend closure built by NewProxy, source lines 26-33, with Go
pointer semantics made explicit. options.Url is a pointer to a URL
object (the closure returns it where a nil-checked pointer is
expected), so the assignment u colon-equals options.Url labelled
Shallow copy copies the POINTER, and the subsequent field assignments
write through it into the URL object shared with the stored
ProxyOptions. The function returns the pair (state of that shared
configured URL object after the call, returned URL); in the source
both are the same object. -/
def newProxyBackend (configUrl reqUrl : URL) : URL × URL :=
  let u := { configUrl with
    fragment := reqUrl.fragment
    path := reqUrl.path
    rawQuery := reqUrl.rawQuery }
  (u, u)

/-- A backend handshake response as consumed by copyResponse: status
code, headers, body bytes (kept as a string). -/
structure HttpResponse where
  statusCode : Nat
  header : Header
  body : String
deriving DecidableEq, Repr

/-- The visible state of the http.ResponseWriter: headers to be sent,
the status code once WriteHeader ran, and the accumulated body. -/
structure ResponseWriter where
  header : Header
  status : Option Nat
  body : String
deriving DecidableEq, Repr

/-- A fresh ResponseWriter before the handler touches it. -/
def emptyRW : ResponseWriter := ⟨[], none, ""⟩

/-- copyHeader, source lines 393-399: Add every value of every key of
src to dst. -/
def copyHeader (dst src : Header) : Header :=
  src.foldl (fun d kv => hAdd d kv.1 kv.2) dst

/-- copyResponse, source lines 401-408: copy the backend response's
headers into the writer, write its status code, and stream its body. -/
def copyResponse (rw : ResponseWriter) (resp : HttpResponse) : ResponseWriter :=
  { rw with
      header := copyHeader rw.header resp.header
      status := some resp.statusCode
      body := rw.body ++ resp.body }

/-- Go net/http.Error: sets Content-Type and X-Content-Type-Options,
writes the status code, and prints the message followed by a newline. -/
def httpError (rw : ResponseWriter) (msg : String) (code : Nat) : ResponseWriter :=
  { rw with
      header := hSet (hSet rw.header "Content-Type" "text/plain; charset=utf-8")
        "X-Content-Type-Options" "nosniff"
      status := some code
      body := rw.body ++ msg ++ "\n" }

/-- Go net/http.StatusText for the one code this handler asks for. -/
def statusText (code : Nat) : String :=
  if code == 503 then "Service Unavailable" else ""

/-- Outcome of dialer.Dial at line 153: success, failure with a non-nil
handshake response, or transport-level failure with no response. -/
inductive DialOutcome where
  | ok
  | errWithResp (resp : HttpResponse)
  | errNoResp
deriving DecidableEq, Repr

/-- ServeHTTP from entry through the dial, source lines 51-167: nil
Backend function responds 500 with error code 1 (lines 52-56); a nil
resolved URL responds 500 with error code 2 (lines 58-63); otherwise
the resolved URL is dialled and a dial failure either relays the
backend's handshake response via copyResponse (non-nil response) or
responds 503 (no response), abandoning the request. Result: the
writer's final state, whether a dial was attempted, and whether a
backend connection was established (the handler proceeds past this
fragment). -/
def serveHTTPThroughDial (backend : Option (URL → Option URL)) (reqUrl : URL)
    (dial : DialOutcome) : ResponseWriter × Bool × Bool :=
  match backend with
  | none => (httpError emptyRW "internal server error (code: 1)" 500, false, false)
  | some f =>
    match f reqUrl with
    | none => (httpError emptyRW "internal server error (code: 2)" 500, false, false)
    | some _ =>
      match dial with
      | .errWithResp resp => (copyResponse emptyRW resp, true, false)
      | .errNoResp => (httpError emptyRW (statusText 503) 503, true, false)
      | .ok => (emptyRW, true, true)

/-- The mutable per-session state of HalfDuplexWebsocketProxy that
CloseProxy, SendMessageByType and IsConnected touch: the two owned
connection handles (nil until the upgrade completes, nilled by
CloseProxy), the Connected flag, and the closed-ness of the two stop
channels. -/
structure HDProxy where
  toBackend : Option Unit
  toClient : Option Unit
  connected : Bool
  stopBackendClosed : Bool
  stopClientClosed : Bool
deriving DecidableEq, Repr

/-- What CloseProxy did to the two connections. -/
structure CloseEffects where
  closedBackendConn : Bool
  closedClientConn : Bool
deriving DecidableEq, Repr

/-- CloseProxy, source lines 379-391: close and nil each owned
connection handle that is present, then close both stop channels
unconditionally. Go's close on an already-closed channel panics at
runtime; the third component carries the panic message when that
happens (execution stops there) and none when the call returns
normally. -/
def closeProxy (s : HDProxy) : HDProxy × CloseEffects × Option String :=
  let (s1, cb) := match s.toBackend with
    | some _ => ({ s with toBackend := none }, true)
    | none => (s, false)
  let (s2, cc) := match s1.toClient with
    | some _ => ({ s1 with toClient := none }, true)
    | none => (s1, false)
  if s2.stopBackendClosed then
    (s2, ⟨cb, cc⟩, some "close of closed channel")
  else
    let s3 := { s2 with stopBackendClosed := true }
    if s3.stopClientClosed then
      (s3, ⟨cb, cc⟩, some "close of closed channel")
    else
      ({ s3 with stopClientClosed := true }, ⟨cb, cc⟩, none)

/-- SendMessageByType, source lines 360-371: when the owned client
handle is nil, return common.ErrConnectionNotEstablished without
writing; otherwise perform WriteMessage on the client connection and
return its error unchanged (nil on success). The first component
records the write performed (message type and payload), none when no
write happened; writeResult is the outcome the connection yields for
the attempted write. -/
def sendMessageByType (s : HDProxy) (msgType : Nat) (data : List Nat)
    (writeResult : Option GoError) : Option (Nat × List Nat) × Option GoError :=
  match s.toClient with
  | none => (none, some GoError.connNotEstablished)
  | some _ => (some (msgType, data), writeResult)

/-- IsConnected, source lines 374-376: reads the Connected flag. -/
def isConnected (s : HDProxy) : Bool := s.connected

/-- The deadline offset, in seconds from now, that the ping handler
passes to both WriteControl calls (time.Now().Add(time.Second)). -/
def pingDeadlineSeconds : Nat := 1

/-- What one invocation of the installed ping handler did: the ping
control write forwarded to the backend (application data and deadline
offset), the pong control write answered to the client, and the
handler's returned error. -/
structure PingOutcome where
  backendPing : Option (String × Nat)
  clientPong : Option (String × Nat)
  result : Option GoError
deriving DecidableEq, Repr

/-- The ping handler installed on the client connection, source lines
314-328: forward a ping with the same application data to the backend
under a one-second deadline and return any failure; then answer a pong
with the same application data to the client under the same deadline,
treating websocket.ErrCloseSent and temporary net.Error failures as
success and returning any other failure. backendWrite and clientWrite
are the outcomes of the two WriteControl calls. -/
def pingHandler (appData : String) (backendWrite clientWrite : Option GoError) : PingOutcome :=
  match backendWrite with
  | some e => ⟨some (appData, pingDeadlineSeconds), none, some e⟩
  | none =>
      let res : Option GoError :=
        match clientWrite with
        | some .errCloseSent => none
        | some (.netTemporary _) => none
        | r => r
      ⟨some (appData, pingDeadlineSeconds), some (appData, pingDeadlineSeconds), res⟩

/-- The pong-write failures that the ping handler tolerates (treats as
success): a close was already sent, or a temporary network error. -/
def pongErrorTolerated : Option GoError → Bool
  | some .errCloseSent => true
  | some (.netTemporary _) => true
  | _ => false

/-
Theorems.
-/

/-- Helper: the forward loop never writes anything in the intercept
loop's place — the intercept loop produces no message writes at all,
for any Viewer configuration and any read sequence. -/
theorem messageWrites_intercept (v : Bool) (reads : List ReadResult) :
    messageWrites (replicateWebsocketClientToProxy v reads) = [] := by
  induction reads with
  | nil => rfl
  | cons r rest ih =>
      cases r with
      | err e => simpa [replicateWebsocketClientToProxy, messageWrites] using ih
      | ok t p =>
          cases h : (t == 1 && v) <;>
            simp [replicateWebsocketClientToProxy, messageWrites, h, ih]

/-- Helper: with a Viewer configured, the intercept loop delivers to it
exactly the payloads of the successfully read text-type messages, in
order. -/
theorem viewerPayloads_intercept_true (reads : List ReadResult) :
    viewerPayloads (replicateWebsocketClientToProxy true reads) = textPayloads reads := by
  induction reads with
  | nil => rfl
  | cons r rest ih =>
      cases r with
      | err e => simpa [replicateWebsocketClientToProxy, viewerPayloads, textPayloads] using ih
      | ok t p =>
          cases h : (t == 1) <;>
            simp [replicateWebsocketClientToProxy, viewerPayloads, textPayloads, h, ih]

/-- Helper: with no Viewer configured, nothing is ever delivered. -/
theorem viewerPayloads_intercept_false (reads : List ReadResult) :
    viewerPayloads (replicateWebsocketClientToProxy false reads) = [] := by
  induction reads with
  | nil => rfl
  | cons r rest ih =>
      cases r with
      | err e => simpa [replicateWebsocketClientToProxy, viewerPayloads] using ih
      | ok t p => simpa [replicateWebsocketClientToProxy, viewerPayloads] using ih

/-- C1 (counterexample): the claim says every message the intercept
loop reads from the backend is handed to the Viewer when one is
configured. In a successful session consisting of one binary message
(type 2, payload byte 101) read from the backend with a Viewer
configured, the loop produces only the read event: the payload reaches
no destination at all — the Viewer receives nothing (line 297 guards
delivery with msgType equal to 1). -/
theorem intercept_binary_not_delivered :
    replicateWebsocketClientToProxy true [ReadResult.ok 2 [101]] =
      [Event.readCall (ReadResult.ok 2 [101])] ∧
    viewerPayloads [Event.readCall (ReadResult.ok 2 [101])] = [] := ⟨rfl, rfl⟩

/-- C1 (amended): for every session and every sequence of messages the
intercept loop reads from the backend, no message is ever written to
the client (the loop performs no message writes at all), and the
payloads handed to the Viewer are exactly the payloads of the
text-type (type 1) messages when a Viewer is configured, in read
order, and nothing when none is configured — so each backend message
reaches the Viewer precisely when it is a text-type payload and a
Viewer is configured, and no other destination. -/
theorem intercept_loop_delivery (v : Bool) (reads : List ReadResult) :
    messageWrites (replicateWebsocketClientToProxy v reads) = [] ∧
    viewerPayloads (replicateWebsocketClientToProxy v reads) =
      (if v then textPayloads reads else []) := by
  refine ⟨messageWrites_intercept v reads, ?_⟩
  cases v
  · simpa using viewerPayloads_intercept_false reads
  · simpa using viewerPayloads_intercept_true reads

/-- C2: in a successful session (every read and every forwarding write
succeeds), the forward loop's trace is exactly read one message, write
it to the backend with the same type and payload, then read the next:
every client message is forwarded unchanged, in read order, each fully
forwarded before the next client message is read; and the backend
writes list exactly the read messages. -/
theorem forward_loop_transparent (msgs : List (Nat × List Nat)) :
    replicateWebsocketProxyToServer (msgs.map fun m => ⟨ReadResult.ok m.1 m.2, none⟩) =
      fwdExpectedTrace msgs ∧
    messageWrites (fwdExpectedTrace msgs) = msgs := by
  constructor
  · induction msgs with
    | nil => rfl
    | cons m rest ih =>
        simpa [replicateWebsocketProxyToServer, fwdExpectedTrace] using ih
  · induction msgs with
    | nil => rfl
    | cons m rest ih => simpa [fwdExpectedTrace, messageWrites] using ih

/-- C4 (code evaluation at the failing input): when the forward loop's
read of the client fails (here a plain error with text unexpected EOF)
and a further read outcome is pending, the loop reports the error on
its channel and writes the synthesized close frame (normal-closure
code 1000 with the error text) to the backend — but then READS AGAIN
and keeps forwarding: the break in the read-error branch terminates
only the enclosing select, and doExit is still false, so the loop does
not terminate as the claim (and the intent visible in the doExit
mechanism) requires. -/
theorem forward_loop_read_error_continues :
    replicateWebsocketProxyToServer
        [⟨ReadResult.err (GoError.other "unexpected EOF"), none⟩,
         ⟨ReadResult.ok 1 [97], none⟩] =
      [Event.readCall (ReadResult.err (GoError.other "unexpected EOF")),
       Event.reportErr (GoError.other "unexpected EOF"),
       Event.writeCloseCall ⟨1000, "unexpected EOF"⟩,
       Event.readCall (ReadResult.ok 1 [97]),
       Event.writeCall 1 [97] none] := rfl

/-- C3 (code evaluation at the failing input): in natural-tunnel mode,
for an inbound request carrying Authorization, Connection, Upgrade,
Sec-Websocket-Key and Te headers, the request-leg header set does strip
the negotiation and hop-by-hop names (only Authorization survives the
clone-then-strip, and none of the eleven names occurs in the set passed
to the dialer), but the client upgrader receives a nil header set —
not the cloned-then-stripped set the claim requires: the assignment at
source line 180 shadows the outer upgradeHeader variable, so the outer
variable stays nil on this path. -/
theorem naturalTunnel_upgrade_header_shadowed :
    naturalTunnelRequestHeader
        [("Authorization", "secret"), ("Connection", "Upgrade"),
         ("Sec-Websocket-Key", "abc"), ("Upgrade", "websocket"), ("Te", "trailers")] =
      [("Authorization", "secret")] ∧
    (tunnelDelNames.all fun k =>
      (hValues (requestHeaderNaturalTunnel
        [("Authorization", "secret"), ("Connection", "Upgrade"),
         ("Sec-Websocket-Key", "abc"), ("Upgrade", "websocket"), ("Te", "trailers")]
        (some "10.0.0.9") false) k).isEmpty) = true ∧
    upgradeHeaderPassed true [] = none ∧
    upgradeHeaderPassed true [] ≠
      some (naturalTunnelRequestHeader
        [("Authorization", "secret"), ("Connection", "Upgrade"),
         ("Sec-Websocket-Key", "abc"), ("Upgrade", "websocket"), ("Te", "trailers")]) := by
  refine ⟨rfl, rfl, rfl, by decide⟩

/-- C5 (code evaluation at the failing input): the backend resolver
built by NewProxy does return a URL whose scheme and host come from the
configured backend URL and whose path, raw query and fragment come from
the inbound request — but it is not side-effect-free: because the
so-called shallow copy copies only the pointer, the field assignments
mutate the URL object shared with the stored ProxyOptions, whose path
changes from /base to /chat. -/
theorem backend_resolver_mutates_config :
    (newProxyBackend ⟨"ws", "backend.example:3000", "/base", "", ""⟩
        ⟨"http", "proxy.example", "/chat", "q=1", "frag"⟩).2 =
      ⟨"ws", "backend.example:3000", "/chat", "q=1", "frag"⟩ ∧
    (newProxyBackend ⟨"ws", "backend.example:3000", "/base", "", ""⟩
        ⟨"http", "proxy.example", "/chat", "q=1", "frag"⟩).1 ≠
      ⟨"ws", "backend.example:3000", "/base", "", ""⟩ := by
  exact ⟨rfl, by decide⟩

/-- C6 (counterexample): starting from an established session (both
handles present, both stop channels open), the first CloseProxy call
returns normally, but the second invocation panics — close of an
already-closed channel — contradicting the claim that the whole second
invocation completes without a panic. -/
theorem closeProxy_second_call_panics :
    (closeProxy (closeProxy ⟨some (), some (), true, false, false⟩).1).2.2 =
      some "close of closed channel" := rfl

/-- C6 (amended): from any state whose stop channels are still open,
the first CloseProxy call closes and nils both owned connection handles
and returns without a panic; the second invocation's connection-closing
branches are no-ops (it closes no connection), but it panics when it
re-closes the already-closed stop channels — callers, not CloseProxy,
must avoid the double close. -/
theorem closeProxy_twice (b c : Option Unit) (conn : Bool) :
    (closeProxy ⟨b, c, conn, false, false⟩).1.toBackend = none ∧
    (closeProxy ⟨b, c, conn, false, false⟩).1.toClient = none ∧
    (closeProxy ⟨b, c, conn, false, false⟩).2.2 = none ∧
    (closeProxy (closeProxy ⟨b, c, conn, false, false⟩).1).2.1 = ⟨false, false⟩ ∧
    (closeProxy (closeProxy ⟨b, c, conn, false, false⟩).1).2.2 =
      some "close of closed channel" := by
  cases b <;> cases c <;> exact ⟨rfl, rfl, rfl, rfl, rfl⟩

/-- Helper: copyHeader folds http.Header.Add over the source entries,
so it appends them (with the canonicalization Add performs on keys) to
the destination. -/
theorem copyHeader_eq_append (dst src : Header) :
    copyHeader dst src = dst ++ src.map fun kv => (canonicalKey kv.1, kv.2) := by
  induction src generalizing dst with
  | nil => simp [copyHeader]
  | cons kv rest ih =>
      show copyHeader (hAdd dst kv.1 kv.2) rest = _
      rw [ih]
      simp [hAdd]

/-- Helper: prepending the empty string is the identity. -/
theorem string_empty_append (s : String) : "" ++ s = s := by
  cases s with
  | mk data => rfl

/-- C7: when the dial of the resolved backend URL fails with a non-nil
handshake response, the handler relays that response's status code,
headers (each entry, under the canonical key http.Header.Add stores it
at — response headers are already canonical) and body verbatim to the
original caller and abandons the request with no connection
established; when the dial fails with no response, it responds 503
Service Unavailable and abandons the request. -/
theorem dial_failure_handling (u reqUrl : URL) (resp : HttpResponse) :
    (serveHTTPThroughDial (some fun _ => some u) reqUrl (.errWithResp resp)).1 =
      ⟨resp.header.map fun kv => (canonicalKey kv.1, kv.2),
        some resp.statusCode, resp.body⟩ ∧
    (serveHTTPThroughDial (some fun _ => some u) reqUrl (.errWithResp resp)).2 =
      (true, false) ∧
    (serveHTTPThroughDial (some fun _ => some u) reqUrl .errNoResp).1.status = some 503 ∧
    (serveHTTPThroughDial (some fun _ => some u) reqUrl .errNoResp).1.body =
      "Service Unavailable\n" ∧
    (serveHTTPThroughDial (some fun _ => some u) reqUrl .errNoResp).2 = (true, false) := by
  refine ⟨?_, rfl, rfl, rfl, rfl⟩
  show copyResponse emptyRW resp = _
  simp [copyResponse, emptyRW, copyHeader_eq_append, string_empty_append]

/-- C8: a nil backend resolver function makes the handler respond 500
with the error-code-1 body and attempt no dial; a resolver returning a
nil URL makes it respond 500 with the error-code-2 body and attempt no
dial; the two bodies are distinct, disambiguating the two nil cases. -/
theorem nil_backend_responds_500 (reqUrl : URL) (dial : DialOutcome) :
    (serveHTTPThroughDial none reqUrl dial).1.status = some 500 ∧
    (serveHTTPThroughDial none reqUrl dial).1.body = "internal server error (code: 1)\n" ∧
    (serveHTTPThroughDial none reqUrl dial).2 = (false, false) ∧
    (serveHTTPThroughDial (some fun _ => none) reqUrl dial).1.status = some 500 ∧
    (serveHTTPThroughDial (some fun _ => none) reqUrl dial).1.body =
      "internal server error (code: 2)\n" ∧
    (serveHTTPThroughDial (some fun _ => none) reqUrl dial).2 = (false, false) ∧
    "internal server error (code: 1)\n" ≠ "internal server error (code: 2)\n" := by
  refine ⟨rfl, rfl, rfl, rfl, rfl, rfl, by decide⟩

/-- C9: for every ping received on the client connection, the handler
forwards a ping with the same application data to the backend under the
fixed one-second deadline; when that forward fails its error is
returned and no pong is written; otherwise a pong with the same
application data is written to the client under the same deadline, and
the handler returns success exactly when the pong write succeeded or
failed because a close was already sent or because of a temporary
network error, returning the pong write error otherwise, unchanged. -/
theorem ping_handler_bridging (a : String) (b c : Option GoError) :
    (pingHandler a b c).backendPing = some (a, pingDeadlineSeconds) ∧
    (pingHandler a b c).clientPong =
      (if b = none then some (a, pingDeadlineSeconds) else none) ∧
    (pingHandler a b c).result =
      (if b = none then (if pongErrorTolerated c then none else c) else b) := by
  cases b with
  | some e => exact ⟨rfl, rfl, rfl⟩
  | none =>
      cases c with
      | none => exact ⟨rfl, rfl, rfl⟩
      | some e => cases e <;> exact ⟨rfl, rfl, rfl⟩

/-- C10: SendMessageByType decides established solely by the owned
client connection handle, not by the Connected flag: with a nil handle
it returns the connection-not-established error and performs no write,
whatever the flag; with a handle present it attempts the write and
returns the write outcome unchanged — in particular with the flag
false (as after relay termination) the send still goes through while
IsConnected reports false; and after CloseProxy (which nils the
handle) the send fails with connection-not-established. -/
theorem sendMessageByType_handle_only (b : Option Unit) (conn sb sc : Bool)
    (mt : Nat) (d : List Nat) (w : Option GoError) :
    sendMessageByType ⟨b, none, conn, sb, sc⟩ mt d w =
      (none, some GoError.connNotEstablished) ∧
    sendMessageByType ⟨b, some (), conn, sb, sc⟩ mt d w = (some (mt, d), w) ∧
    isConnected ⟨b, some (), false, sb, sc⟩ = false ∧
    sendMessageByType (closeProxy ⟨b, some (), conn, sb, sc⟩).1 mt d w =
      (none, some GoError.connNotEstablished) := by
  refine ⟨rfl, rfl, rfl, ?_⟩
  cases b <;> cases sb <;> cases sc <;> rfl

end WSProxy
